import Mathlib

/-!
Verification of the OnbordBot new-hire workflow core.

This file embeds, in Lean, the data model and operations of the bot:
the status enums and `Hire` record of `bot/database/models.py`, the
service-layer operations of `bot/services/hire_service.py`, the
authorization check and callback handlers of `bot/handlers/callbacks.py`
(plus the `/note` command of `bot/handlers/commands.py`), and the two
reminder/escalation scheduler passes (`bot/services/scheduler.py`, which
`main.py` wires, and the parallel `bot/scheduler/reminders.py`).

Dates are modelled at the granularity the code actually uses for all
scheduling decisions: `days_until` in the source converts both the start
date and the current instant to calendar dates in the configured timezone
and subtracts, so here a date is an integer day number in that timezone
and `days_until now d = d - now`.  Delivery of a Telegram message either
succeeds or raises `TelegramBadRequest`; a `Notifier` maps each recipient
chat id to that outcome.  The SQLAlchemy session is modelled as an
explicit `Store` value (the table of hires plus the append-only history
table); each service method is a function on `Store`.
-/

/-- Overall hire status (`HireStatus` in `bot/database/models.py`). -/
inductive HireStatus
  | CREATED
  | IN_PROGRESS
  | READY_FOR_DAY1
  | COMPLETED
deriving DecidableEq, Repr, Fintype

/-- Leader acknowledgement status (`LeaderStatus`). -/
inductive LeaderStatus
  | PENDING
  | ACKNOWLEDGED
deriving DecidableEq, Repr, Fintype

/-- Legal documents status (`LegalStatus`). -/
inductive LegalStatus
  | PENDING
  | DOCS_SENT
deriving DecidableEq, Repr, Fintype

/-- DevOps access status (`DevOpsStatus`). -/
inductive DevOpsStatus
  | PENDING
  | ACCESS_GRANTED
deriving DecidableEq, Repr, Fintype

/-- The `.value` string of a `LeaderStatus` member. -/
def LeaderStatus.value : LeaderStatus → String
  | .PENDING => "PENDING"
  | .ACKNOWLEDGED => "ACKNOWLEDGED"

/-- The `.value` string of a `LegalStatus` member. -/
def LegalStatus.value : LegalStatus → String
  | .PENDING => "PENDING"
  | .DOCS_SENT => "DOCS_SENT"

/-- The `.value` string of a `DevOpsStatus` member. -/
def DevOpsStatus.value : DevOpsStatus → String
  | .PENDING => "PENDING"
  | .ACCESS_GRANTED => "ACCESS_GRANTED"

/-- The `.value` string of a `HireStatus` member. -/
def HireStatus.value : HireStatus → String
  | .CREATED => "CREATED"
  | .IN_PROGRESS => "IN_PROGRESS"
  | .READY_FOR_DAY1 => "READY_FOR_DAY1"
  | .COMPLETED => "COMPLETED"

/-- A row of the `hires` table (`Hire` in `bot/database/models.py`).
`start_date` is the calendar day number of the start date in the
configured timezone.  The purely presentational columns
(`access_checklist`, `message_id`, `created_at`, `updated_at`) are not
touched by any operation verified here and are omitted. -/
structure Hire where
  hire_id : String
  full_name : String
  start_date : Int
  role : String
  leader_id : Option Int
  leader_username : String
  legal_id : Option Int
  legal_username : String
  devops_id : Option Int
  devops_username : String
  docs_email : String
  notes : Option String
  status : HireStatus
  leader_status : LeaderStatus
  legal_status : LegalStatus
  devops_status : DevOpsStatus
  chat_id : Int
  creator_id : Int
  legal_reminded : Bool
  devops_reminded : Bool
  escalated : Bool
deriving DecidableEq, Repr

/-- A row of the `status_history` table (`StatusHistory` in
`bot/database/models.py`).  The server-generated `ts` column is omitted:
rows are kept in insertion order, which is the order `get_history`
returns (it orders by `ts` ascending). -/
structure StatusHistory where
  hire_id : String
  actor_id : Int
  actor_username : Option String
  action : String
  details : Option String
deriving DecidableEq, Repr

/-- The database state seen through one SQLAlchemy session: the `hires`
table and the append-only `status_history` table. -/
structure Store where
  hires : List Hire
  history : List StatusHistory
deriving DecidableEq, Repr

/-- `HireService.get_hire`: `select(Hire).where(Hire.hire_id == hire_id)`
with `scalar_one_or_none` (the first matching row, `none` if absent). -/
def get_hire (s : Store) (hire_id : String) : Option Hire :=
  s.hires.find? (fun h => h.hire_id == hire_id)

/-- Update the first row whose `hire_id` matches, the row the session
mutates after `get_hire` fetched it. -/
def update_first (hire_id : String) (f : Hire → Hire) : List Hire → List Hire
  | [] => []
  | h :: rest =>
      if h.hire_id == hire_id then f h :: rest
      else h :: update_first hire_id f rest

/-- `HireService._update_overall_status`: sticky on `COMPLETED`, then
`READY_FOR_DAY1` when all three sub-statuses are done, then
`IN_PROGRESS` when any sub-status is not pending; there is no `else`
branch, so in the all-pending case the row keeps its current status. -/
def update_overall_status (h : Hire) : Hire :=
  if h.status = HireStatus.COMPLETED then h
  else if h.leader_status = LeaderStatus.ACKNOWLEDGED ∧
          h.legal_status = LegalStatus.DOCS_SENT ∧
          h.devops_status = DevOpsStatus.ACCESS_GRANTED then
    { h with status := HireStatus.READY_FOR_DAY1 }
  else if h.leader_status ≠ LeaderStatus.PENDING ∨
          h.legal_status ≠ LegalStatus.PENDING ∨
          h.devops_status ≠ DevOpsStatus.PENDING then
    { h with status := HireStatus.IN_PROGRESS }
  else h

/-- `HireService.update_leader_status`: fetch, set the sub-status,
append a `LEADER_STATUS_CHANGED` history row, re-derive the overall
status on the mutated row; `none` signals the unknown id. -/
def update_leader_status (s : Store) (hire_id : String)
    (status : LeaderStatus) (actor_id : Int) (actor_username : Option String) :
    Option Store :=
  match get_hire s hire_id with
  | none => none
  | some hire =>
      some { hires := update_first hire_id
               (fun h => update_overall_status { h with leader_status := status })
               s.hires,
             history := s.history ++
               [{ hire_id := hire_id, actor_id := actor_id,
                  actor_username := actor_username,
                  action := "LEADER_STATUS_CHANGED",
                  details := some ("Leader status: " ++ hire.leader_status.value
                    ++ " -> " ++ status.value) }] }

/-- `HireService.update_legal_status` (symmetric to the leader case). -/
def update_legal_status (s : Store) (hire_id : String)
    (status : LegalStatus) (actor_id : Int) (actor_username : Option String) :
    Option Store :=
  match get_hire s hire_id with
  | none => none
  | some hire =>
      some { hires := update_first hire_id
               (fun h => update_overall_status { h with legal_status := status })
               s.hires,
             history := s.history ++
               [{ hire_id := hire_id, actor_id := actor_id,
                  actor_username := actor_username,
                  action := "LEGAL_STATUS_CHANGED",
                  details := some ("Legal status: " ++ hire.legal_status.value
                    ++ " -> " ++ status.value) }] }

/-- `HireService.update_devops_status` (symmetric to the leader case). -/
def update_devops_status (s : Store) (hire_id : String)
    (status : DevOpsStatus) (actor_id : Int) (actor_username : Option String) :
    Option Store :=
  match get_hire s hire_id with
  | none => none
  | some hire =>
      some { hires := update_first hire_id
               (fun h => update_overall_status { h with devops_status := status })
               s.hires,
             history := s.history ++
               [{ hire_id := hire_id, actor_id := actor_id,
                  actor_username := actor_username,
                  action := "DEVOPS_STATUS_CHANGED",
                  details := some ("DevOps status: " ++ hire.devops_status.value
                    ++ " -> " ++ status.value) }] }

/-- `HireService.mark_completed`: unconditionally forces the overall
status to `COMPLETED` and appends a `COMPLETED` history row. -/
def mark_completed (s : Store) (hire_id : String)
    (actor_id : Int) (actor_username : Option String) : Option Store :=
  match get_hire s hire_id with
  | none => none
  | some _ =>
      some { hires := update_first hire_id
               (fun h => { h with status := HireStatus.COMPLETED }) s.hires,
             history := s.history ++
               [{ hire_id := hire_id, actor_id := actor_id,
                  actor_username := actor_username,
                  action := "COMPLETED",
                  details := some "Marked as completed" }] }

/-- `HireService.reopen`: sets the overall status to `IN_PROGRESS` and
appends a `REOPENED` history row.  The method performs no check that the
hire is currently `COMPLETED`. -/
def reopen (s : Store) (hire_id : String)
    (actor_id : Int) (actor_username : Option String) : Option Store :=
  match get_hire s hire_id with
  | none => none
  | some hire =>
      some { hires := update_first hire_id
               (fun h => { h with status := HireStatus.IN_PROGRESS }) s.hires,
             history := s.history ++
               [{ hire_id := hire_id, actor_id := actor_id,
                  actor_username := actor_username,
                  action := "REOPENED",
                  details := some ("Reopened from " ++ hire.status.value) }] }

/-- `HireService.add_note`: appends the note text to the notes log and a
`NOTE_ADDED` history row.  The wall-clock "[timestamp] " prefix the
source formats into the notes string is abstracted away. -/
def add_note (s : Store) (hire_id : String) (note : String)
    (actor_id : Int) (actor_username : Option String) : Option Store :=
  match get_hire s hire_id with
  | none => none
  | some _ =>
      some { hires := update_first hire_id
               (fun h => { h with notes := some ((h.notes.getD "") ++ "\n" ++ note) })
               s.hires,
             history := s.history ++
               [{ hire_id := hire_id, actor_id := actor_id,
                  actor_username := actor_username,
                  action := "NOTE_ADDED",
                  details := some note }] }

/-- `HireService.mark_legal_reminded`: silently does nothing when the id
does not resolve (`if hire:` guard, normal return either way). -/
def mark_legal_reminded (s : Store) (hire_id : String) : Store :=
  match get_hire s hire_id with
  | none => s
  | some _ =>
      { s with hires :=
          update_first hire_id (fun h => { h with legal_reminded := true }) s.hires }

/-- `HireService.mark_devops_reminded` (same silent-miss shape). -/
def mark_devops_reminded (s : Store) (hire_id : String) : Store :=
  match get_hire s hire_id with
  | none => s
  | some _ =>
      { s with hires :=
          update_first hire_id (fun h => { h with devops_reminded := true }) s.hires }

/-- `HireService.mark_escalated` (same silent-miss shape). -/
def mark_escalated (s : Store) (hire_id : String) : Store :=
  match get_hire s hire_id with
  | none => s
  | some _ =>
      { s with hires :=
          update_first hire_id (fun h => { h with escalated := true }) s.hires }

/-- The row `HireService.create_hire` builds: all sub-statuses pending,
overall status `CREATED`, all one-shot flags unset. -/
def new_hire (hire_id full_name : String) (start_date : Int)
    (role leader_username legal_username devops_username docs_email : String)
    (chat_id creator_id : Int) : Hire :=
  { hire_id := hire_id, full_name := full_name, start_date := start_date,
    role := role,
    leader_id := none, leader_username := leader_username,
    legal_id := none, legal_username := legal_username,
    devops_id := none, devops_username := devops_username,
    docs_email := docs_email, notes := none,
    status := HireStatus.CREATED,
    leader_status := LeaderStatus.PENDING,
    legal_status := LegalStatus.PENDING,
    devops_status := DevOpsStatus.PENDING,
    chat_id := chat_id, creator_id := creator_id,
    legal_reminded := false, devops_reminded := false, escalated := false }

/-- `HireService.create_hire`: inserts the new row and a `CREATED`
history row.  The random-unique-id retry loop is modelled by taking the
fresh id as a parameter. -/
def create_hire (s : Store) (hire_id full_name : String) (start_date : Int)
    (role leader_username legal_username devops_username docs_email : String)
    (chat_id creator_id : Int) : Store :=
  { hires := s.hires ++ [new_hire hire_id full_name start_date role
      leader_username legal_username devops_username docs_email chat_id creator_id],
    history := s.history ++
      [{ hire_id := hire_id, actor_id := creator_id, actor_username := none,
         action := "CREATED",
         details := some ("Created hire record for " ++ full_name) }] }

/-- The settings consumed by the handlers and the scheduler
(`bot/config.py`): the admin id list, the onboarding chat id, and the
reminder/escalation thresholds (defaults 3, 1 and 24). -/
structure BotSettings where
  admin_ids_list : List Int
  ONBOARDING_CHAT_ID : Int
  LEGAL_REMINDER_DAYS : Int
  DEVOPS_REMINDER_DAYS : Int
  ESCALATION_HOURS : Int
deriving DecidableEq, Repr

/-- The identity a callback or command carries (`callback.from_user`). -/
structure CallbackUser where
  id : Int
  username : Option String
deriving DecidableEq, Repr

/-- `is_user_authorized_for_action` in `bot/handlers/callbacks.py`.
`username` is the lowercased sender handle, or `""` when unset, exactly
as the source computes it. -/
def is_user_authorized_for_action (cfg : BotSettings) (user : CallbackUser)
    (hire : Hire) (action : String) : Bool :=
  let user_id := user.id
  let username := (user.username.map String.toLower).getD ""
  let is_creator := user_id == hire.creator_id
  let is_admin := cfg.admin_ids_list.contains user_id
  if action == "leader_ack" then
    hire.leader_id == some user_id ||
    username == hire.leader_username.toLower ||
    is_creator || is_admin
  else if action == "docs_sent" then
    hire.legal_id == some user_id ||
    username == hire.legal_username.toLower ||
    is_creator || is_admin
  else if action == "access_granted" then
    hire.devops_id == some user_id ||
    username == hire.devops_username.toLower ||
    is_creator || is_admin
  else if action == "complete" || action == "reopen" || action == "add_note" then
    is_creator || is_admin
  else if action == "show_status" then
    true
  else
    false

/-- The visible outcome of a callback or command handler: the alert or
answer it sends back instead of, or after, mutating the store. -/
inductive HandlerAnswer
  | notFound
  | notAuthorized
  | alreadyDone
  | badInput
  | ok
deriving DecidableEq, Repr

/-- `leader_acknowledge` in `bot/handlers/callbacks.py`: not-found and
authorization guards, then the benign already-acknowledged early return,
then the service-layer mutation. -/
def leader_acknowledge (cfg : BotSettings) (user : CallbackUser)
    (s : Store) (hire_id : String) : Store × HandlerAnswer :=
  match get_hire s hire_id with
  | none => (s, HandlerAnswer.notFound)
  | some hire =>
      if !is_user_authorized_for_action cfg user hire "leader_ack" then
        (s, HandlerAnswer.notAuthorized)
      else if hire.leader_status = LeaderStatus.ACKNOWLEDGED then
        (s, HandlerAnswer.alreadyDone)
      else
        ((update_leader_status s hire_id LeaderStatus.ACKNOWLEDGED
            user.id user.username).getD s,
         HandlerAnswer.ok)

/-- `docs_sent` in `bot/handlers/callbacks.py`. -/
def docs_sent (cfg : BotSettings) (user : CallbackUser)
    (s : Store) (hire_id : String) : Store × HandlerAnswer :=
  match get_hire s hire_id with
  | none => (s, HandlerAnswer.notFound)
  | some hire =>
      if !is_user_authorized_for_action cfg user hire "docs_sent" then
        (s, HandlerAnswer.notAuthorized)
      else if hire.legal_status = LegalStatus.DOCS_SENT then
        (s, HandlerAnswer.alreadyDone)
      else
        ((update_legal_status s hire_id LegalStatus.DOCS_SENT
            user.id user.username).getD s,
         HandlerAnswer.ok)

/-- `access_granted` in `bot/handlers/callbacks.py`. -/
def access_granted (cfg : BotSettings) (user : CallbackUser)
    (s : Store) (hire_id : String) : Store × HandlerAnswer :=
  match get_hire s hire_id with
  | none => (s, HandlerAnswer.notFound)
  | some hire =>
      if !is_user_authorized_for_action cfg user hire "access_granted" then
        (s, HandlerAnswer.notAuthorized)
      else if hire.devops_status = DevOpsStatus.ACCESS_GRANTED then
        (s, HandlerAnswer.alreadyDone)
      else
        ((update_devops_status s hire_id DevOpsStatus.ACCESS_GRANTED
            user.id user.username).getD s,
         HandlerAnswer.ok)

/-- `mark_complete` in `bot/handlers/callbacks.py`: after the guards it
completes unconditionally (no check of the current status). -/
def mark_complete (cfg : BotSettings) (user : CallbackUser)
    (s : Store) (hire_id : String) : Store × HandlerAnswer :=
  match get_hire s hire_id with
  | none => (s, HandlerAnswer.notFound)
  | some hire =>
      if !is_user_authorized_for_action cfg user hire "complete" then
        (s, HandlerAnswer.notAuthorized)
      else
        ((mark_completed s hire_id user.id user.username).getD s,
         HandlerAnswer.ok)

/-- `reopen_hire` in `bot/handlers/callbacks.py`: after the not-found
and authorization guards it calls `HireService.reopen` directly; neither
layer checks that the hire is currently `COMPLETED`. -/
def reopen_hire (cfg : BotSettings) (user : CallbackUser)
    (s : Store) (hire_id : String) : Store × HandlerAnswer :=
  match get_hire s hire_id with
  | none => (s, HandlerAnswer.notFound)
  | some hire =>
      if !is_user_authorized_for_action cfg user hire "reopen" then
        (s, HandlerAnswer.notAuthorized)
      else
        ((reopen s hire_id user.id user.username).getD s,
         HandlerAnswer.ok)

/-- `cmd_note` in `bot/handlers/commands.py`: length bound at the
boundary, not-found guard, then the inline creator-or-admin permission
check, then `HireService.add_note`. -/
def cmd_note (cfg : BotSettings) (user : CallbackUser)
    (s : Store) (hire_id : String) (note_text : String) : Store × HandlerAnswer :=
  if note_text.length > 1000 then (s, HandlerAnswer.badInput)
  else
    match get_hire s hire_id with
    | none => (s, HandlerAnswer.notFound)
    | some hire =>
        let is_creator := user.id == hire.creator_id
        let is_admin := cfg.admin_ids_list.contains user.id
        if !is_creator && !is_admin then
          (s, HandlerAnswer.notAuthorized)
        else
          ((add_note s hire_id note_text user.id user.username).getD s,
           HandlerAnswer.ok)

/-- Dispatch an incoming gated action to the handler that serves it. -/
def handle_action (cfg : BotSettings) (user : CallbackUser)
    (s : Store) (hire_id : String) (note_text : String) (action : String) :
    Store × HandlerAnswer :=
  if action == "leader_ack" then leader_acknowledge cfg user s hire_id
  else if action == "docs_sent" then docs_sent cfg user s hire_id
  else if action == "access_granted" then access_granted cfg user s hire_id
  else if action == "complete" then mark_complete cfg user s hire_id
  else if action == "reopen" then reopen_hire cfg user s hire_id
  else if action == "add_note" then cmd_note cfg user s hire_id note_text
  else (s, HandlerAnswer.notFound)

/-- A notification the scheduler attempts to deliver, keyed by the hire
it concerns.  An event is recorded when the corresponding send helper is
invoked, whether or not delivery succeeds. -/
inductive Notification
  | legalReminder (hire_id : String)
  | devopsReminder (hire_id : String)
  | escalation (hire_id : String)
deriving DecidableEq, Repr

/-- The notifier port: whether `bot.send_message(chat_id=c, ...)`
delivers (`true`) or raises `TelegramBadRequest` (`false`). -/
structure Notifier where
  send_message : Int → Bool

/-- `days_until` (`bot/utils/date_utils.py` and
`bot/utils/formatting.py`, identical at day granularity): the signed
whole-day difference between the start date and today in the configured
timezone. -/
def days_until (now : Int) (dt : Int) : Int :=
  dt - now

/-- Python truthiness of an optional integer (`if user_id:`). -/
def truthy_opt_int : Option Int → Bool
  | none => false
  | some n => !(n == 0)

/-- `send_reminder` in `bot/services/scheduler.py`: a direct message
when the user id is truthy, then a chat post when the chat id is truthy;
`true` when at least one delivery succeeded. -/
def send_reminder (nf : Notifier) (chat_id : Int) (user_id : Option Int) : Bool :=
  let dm_ok := truthy_opt_int user_id && nf.send_message (user_id.getD 0)
  let chat_ok := !(chat_id == 0) && nf.send_message chat_id
  dm_ok || chat_ok

/-- `send_legal_reminder` in `bot/services/scheduler.py`: attempt
delivery, and persist the `legal_reminded` flag only when
`send_reminder` reported success. -/
def send_legal_reminder (nf : Notifier) (s : Store) (h : Hire) :
    Store × List Notification :=
  let success := send_reminder nf h.chat_id h.legal_id
  (if success then mark_legal_reminded s h.hire_id else s,
   [Notification.legalReminder h.hire_id])

/-- `send_devops_reminder` in `bot/services/scheduler.py`. -/
def send_devops_reminder (nf : Notifier) (s : Store) (h : Hire) :
    Store × List Notification :=
  let success := send_reminder nf h.chat_id h.devops_id
  (if success then mark_devops_reminded s h.hire_id else s,
   [Notification.devopsReminder h.hire_id])

/-- `send_escalation` in `bot/services/scheduler.py`: tries a direct
message to the creator and a chat post, each in its own
`try/except TelegramBadRequest: pass`, and then calls `mark_escalated`
unconditionally — the flag is persisted whether or not any delivery
succeeded. -/
def send_escalation (nf : Notifier) (s : Store) (h : Hire) :
    Store × List Notification :=
  let _creator_ok := !(h.creator_id == 0) && nf.send_message h.creator_id
  let _chat_ok := nf.send_message h.chat_id
  (mark_escalated s h.hire_id, [Notification.escalation h.hire_id])

/-- `process_hire_reminders` in `bot/services/scheduler.py`: the three
independent eligibility checks for one hire, evaluated on the fetched
row, with the resulting flag writes threaded through the store. -/
def process_hire_reminders (cfg : BotSettings) (nf : Notifier) (now : Int)
    (s : Store) (h : Hire) : Store × List Notification :=
  let days := days_until now h.start_date
  let r1 :=
    if h.legal_status = LegalStatus.PENDING ∧ h.legal_reminded = false ∧
        days ≤ cfg.LEGAL_REMINDER_DAYS ∧ days > 0 then
      send_legal_reminder nf s h
    else (s, [])
  let r2 :=
    if h.devops_status = DevOpsStatus.PENDING ∧ h.devops_reminded = false ∧
        days ≤ cfg.DEVOPS_REMINDER_DAYS ∧ days > 0 then
      send_devops_reminder nf r1.1 h
    else (r1.1, [])
  let r3 :=
    if h.escalated = false ∧ days < 0 then
      if h.legal_status = LegalStatus.PENDING ∨
          h.devops_status = DevOpsStatus.PENDING then
        if (days.natAbs * 24 : Int) ≥ cfg.ESCALATION_HOURS then
          send_escalation nf r2.1 h
        else (r2.1, [])
      else (r2.1, [])
    else (r2.1, [])
  (r3.1, r1.2 ++ r2.2 ++ r3.2)

/-- The row filter of `HireService.get_hires_needing_reminders`:
non-completed, with a pending-and-unreminded legal or devops dimension,
or simply not yet escalated. -/
def needs_reminders_row (h : Hire) : Bool :=
  decide (h.status ≠ HireStatus.COMPLETED) &&
  ((decide (h.legal_status = LegalStatus.PENDING) && !h.legal_reminded) ||
   (decide (h.devops_status = DevOpsStatus.PENDING) && !h.devops_reminded) ||
   !h.escalated)

/-- `HireService.get_hires_needing_reminders`. -/
def get_hires_needing_reminders (s : Store) : List Hire :=
  s.hires.filter needs_reminders_row

/-- The loop body of `check_reminders`: skip a completed row, else
process the hire and thread the store. -/
def check_step (cfg : BotSettings) (nf : Notifier) (now : Int)
    (acc : Store × List Notification) (h : Hire) : Store × List Notification :=
  if h.status = HireStatus.COMPLETED then acc
  else
    let r := process_hire_reminders cfg nf now acc.1 h
    (r.1, acc.2 ++ r.2)

/-- `check_reminders` in `bot/services/scheduler.py` (the pass `main.py`
schedules): fetch the candidates, skip completed rows, and process each
remaining hire in turn, threading the store.  The per-hire
`try/except` isolation has no observable effect here because the model
raises no exceptions. -/
def check_reminders (cfg : BotSettings) (nf : Notifier) (now : Int)
    (s : Store) : Store × List Notification :=
  (get_hires_needing_reminders s).foldl (check_step cfg nf now) (s, [])

/-- The Python expression `HireStatus != HireStatus.COMPLETED` in
`HireService.get_hires_by_status`: it compares the enum *class* with the
`COMPLETED` member, which is the constant `True`, so the
`exclude_completed` clause filters nothing. -/
def hire_status_class_ne_completed : Bool :=
  true

/-- Stable insertion of a hire into a list ordered by ascending
`start_date` (the effect of `ORDER BY start_date ASC`). -/
def insert_by_start_date (h : Hire) : List Hire → List Hire
  | [] => [h]
  | x :: rest =>
      if h.start_date < x.start_date then h :: x :: rest
      else x :: insert_by_start_date h rest

/-- `ORDER BY Hire.start_date ASC` as a stable sort. -/
def order_by_start_date (l : List Hire) : List Hire :=
  l.foldl (fun acc h => insert_by_start_date h acc) []

/-- `HireService.get_hires_by_status` restricted to the arguments the
repository uses (no explicit status list): the broken
`exclude_completed` clause followed by the ordering. -/
def get_hires_by_status (s : Store) (exclude_completed : Bool) : List Hire :=
  let rows :=
    if exclude_completed then
      s.hires.filter (fun _ => hire_status_class_ne_completed)
    else s.hires
  order_by_start_date rows

/-- `HireService.get_open_hires`. -/
def get_open_hires (s : Store) : List Hire :=
  get_hires_by_status s true

/-- `_check_legal_reminder` in `bot/scheduler/reminders.py`: early
returns when docs are sent or the flag is set, then the window check;
the flag write sits after the send inside the `try`, so a failed send
(raised `TelegramBadRequest`) skips it. -/
def check_legal_reminder (cfg : BotSettings) (nf : Notifier) (now : Int)
    (s : Store) (h : Hire) : Store × List Notification :=
  if h.legal_status = LegalStatus.DOCS_SENT then (s, [])
  else if h.legal_reminded then (s, [])
  else
    let days := days_until now h.start_date
    if 0 < days ∧ days ≤ cfg.LEGAL_REMINDER_DAYS then
      if nf.send_message cfg.ONBOARDING_CHAT_ID then
        (mark_legal_reminded s h.hire_id, [Notification.legalReminder h.hire_id])
      else (s, [Notification.legalReminder h.hire_id])
    else (s, [])

/-- `_check_devops_reminder` in `bot/scheduler/reminders.py`. -/
def check_devops_reminder (cfg : BotSettings) (nf : Notifier) (now : Int)
    (s : Store) (h : Hire) : Store × List Notification :=
  if h.devops_status = DevOpsStatus.ACCESS_GRANTED then (s, [])
  else if h.devops_reminded then (s, [])
  else
    let days := days_until now h.start_date
    if 0 < days ∧ days ≤ cfg.DEVOPS_REMINDER_DAYS then
      if nf.send_message cfg.ONBOARDING_CHAT_ID then
        (mark_devops_reminded s h.hire_id, [Notification.devopsReminder h.hire_id])
      else (s, [Notification.devopsReminder h.hire_id])
    else (s, [])

/-- `_check_escalation` in `bot/scheduler/reminders.py`: overdue check,
pending check, threshold check; the chat send is the guarded delivery
(the creator direct message is best-effort and ignored), and the flag
write follows it inside the `try`. -/
def check_escalation (cfg : BotSettings) (nf : Notifier) (now : Int)
    (s : Store) (h : Hire) : Store × List Notification :=
  if h.escalated then (s, [])
  else
    let days := days_until now h.start_date
    if days < 0 then
      if (h.legal_status ≠ LegalStatus.DOCS_SENT ∨
          h.devops_status ≠ DevOpsStatus.ACCESS_GRANTED) ∧
          (days.natAbs * 24 : Int) ≥ cfg.ESCALATION_HOURS then
        if nf.send_message cfg.ONBOARDING_CHAT_ID then
          let _creator_ok := nf.send_message h.creator_id
          (mark_escalated s h.hire_id, [Notification.escalation h.hire_id])
        else (s, [Notification.escalation h.hire_id])
      else (s, [])
    else (s, [])

/-- `send_reminders` in `bot/scheduler/reminders.py` (the parallel,
unwired pass): iterate over `get_open_hires()` and run the three checks
for each hire in turn. -/
def send_reminders (cfg : BotSettings) (nf : Notifier) (now : Int)
    (s : Store) : Store × List Notification :=
  (get_open_hires s).foldl
    (fun acc h =>
      let r1 := check_legal_reminder cfg nf now acc.1 h
      let r2 := check_devops_reminder cfg nf now r1.1 h
      let r3 := check_escalation cfg nf now r2.1 h
      (r3.1, acc.2 ++ r1.2 ++ r2.2 ++ r3.2))
    (s, [])

/-!
## Derived characterizations and helper lemmas

`derive4` is the four-argument form of `_update_overall_status`, proved
equal to it below; the `status_quad` projection and `step4` replay the
sub-status update operations on the four status fields alone, which is
what makes the order-independence claim finitely checkable.
-/

/-- The overall-status derivation as a pure function of the three
sub-statuses and the current overall status. -/
def derive4 (l : LeaderStatus) (g : LegalStatus) (d : DevOpsStatus)
    (c : HireStatus) : HireStatus :=
  if c = HireStatus.COMPLETED then HireStatus.COMPLETED
  else if l = LeaderStatus.ACKNOWLEDGED ∧ g = LegalStatus.DOCS_SENT ∧
          d = DevOpsStatus.ACCESS_GRANTED then
    HireStatus.READY_FOR_DAY1
  else if l ≠ LeaderStatus.PENDING ∨ g ≠ LegalStatus.PENDING ∨
          d ≠ DevOpsStatus.PENDING then
    HireStatus.IN_PROGRESS
  else c

lemma update_overall_status_eq (h : Hire) :
    update_overall_status h =
      { h with status :=
          derive4 h.leader_status h.legal_status h.devops_status h.status } := by
  obtain ⟨i, n, sd, ro, li, lu, gi, gu, di, du, de, no, st, ls, gs, ds, ch, cr, lr, dr, es⟩ := h
  unfold update_overall_status derive4
  dsimp only
  split_ifs <;> simp_all

lemma find?_update_first_self (hire_id : String) (f : Hire → Hire)
    (hf : ∀ h : Hire, (f h).hire_id = h.hire_id) (l : List Hire) :
    (update_first hire_id f l).find? (fun h => h.hire_id == hire_id) =
      (l.find? (fun h => h.hire_id == hire_id)).map f := by
  induction l with
  | nil => rfl
  | cons h t ih =>
      cases hid : (h.hire_id == hire_id) with
      | true => simp [update_first, List.find?, hid, hf]
      | false => simp [update_first, List.find?, hid, ih]

lemma find?_update_first_other (hire_id other : String) (f : Hire → Hire)
    (hf : ∀ h : Hire, (f h).hire_id = h.hire_id) (hne : other ≠ hire_id)
    (l : List Hire) :
    (update_first hire_id f l).find? (fun h => h.hire_id == other) =
      l.find? (fun h => h.hire_id == other) := by
  induction l with
  | nil => rfl
  | cons h t ih =>
      cases hid : (h.hire_id == hire_id) with
      | true =>
          have hido : (h.hire_id == other) = false := by
            rw [beq_iff_eq] at hid
            rw [hid]
            exact beq_eq_false_iff_ne.mpr (fun e => hne e.symm)
          have hfo : ((f h).hire_id == other) = false := by
            rw [hf]; exact hido
          simp [update_first, List.find?, hid, hido, hfo]
      | false =>
          cases ho : (h.hire_id == other) with
          | true => simp [update_first, List.find?, hid, ho]
          | false => simp [update_first, List.find?, hid, ho, ih]

lemma get_hire_update_store_self (s : Store) (hire_id : String) (h : Hire)
    (f : Hire → Hire) (hist : List StatusHistory)
    (hf : ∀ x : Hire, (f x).hire_id = x.hire_id)
    (hh : get_hire s hire_id = some h) :
    get_hire { hires := update_first hire_id f s.hires, history := hist }
      hire_id = some (f h) := by
  unfold get_hire at hh ⊢
  dsimp only
  rw [find?_update_first_self hire_id f hf s.hires, hh]
  rfl

lemma get_hire_update_store_other (s : Store) (hire_id other : String)
    (f : Hire → Hire) (hist : List StatusHistory)
    (hf : ∀ x : Hire, (f x).hire_id = x.hire_id) (hne : other ≠ hire_id) :
    get_hire { hires := update_first hire_id f s.hires, history := hist }
      other = get_hire s other := by
  unfold get_hire
  dsimp only
  exact find?_update_first_other hire_id other f hf hne s.hires

lemma get_hire_mark_legal_self (s : Store) (hire_id : String) (h : Hire)
    (hh : get_hire s hire_id = some h) :
    get_hire (mark_legal_reminded s hire_id) hire_id =
      some { h with legal_reminded := true } := by
  unfold mark_legal_reminded
  simp only [hh]
  exact get_hire_update_store_self s hire_id h
    (fun x => { x with legal_reminded := true }) _ (fun _ => rfl) hh

lemma get_hire_mark_devops_self (s : Store) (hire_id : String) (h : Hire)
    (hh : get_hire s hire_id = some h) :
    get_hire (mark_devops_reminded s hire_id) hire_id =
      some { h with devops_reminded := true } := by
  unfold mark_devops_reminded
  simp only [hh]
  exact get_hire_update_store_self s hire_id h
    (fun x => { x with devops_reminded := true }) _ (fun _ => rfl) hh

lemma get_hire_mark_escalated_self (s : Store) (hire_id : String) (h : Hire)
    (hh : get_hire s hire_id = some h) :
    get_hire (mark_escalated s hire_id) hire_id =
      some { h with escalated := true } := by
  unfold mark_escalated
  simp only [hh]
  exact get_hire_update_store_self s hire_id h
    (fun x => { x with escalated := true }) _ (fun _ => rfl) hh

lemma get_hire_mark_legal_other (s : Store) (hire_id other : String)
    (hne : other ≠ hire_id) :
    get_hire (mark_legal_reminded s hire_id) other = get_hire s other := by
  unfold mark_legal_reminded
  cases hg : get_hire s hire_id with
  | none => rfl
  | some h =>
      exact get_hire_update_store_other s hire_id other
        (fun x => { x with legal_reminded := true }) _ (fun _ => rfl) hne

lemma get_hire_mark_devops_other (s : Store) (hire_id other : String)
    (hne : other ≠ hire_id) :
    get_hire (mark_devops_reminded s hire_id) other = get_hire s other := by
  unfold mark_devops_reminded
  cases hg : get_hire s hire_id with
  | none => rfl
  | some h =>
      exact get_hire_update_store_other s hire_id other
        (fun x => { x with devops_reminded := true }) _ (fun _ => rfl) hne

lemma get_hire_mark_escalated_other (s : Store) (hire_id other : String)
    (hne : other ≠ hire_id) :
    get_hire (mark_escalated s hire_id) other = get_hire s other := by
  unfold mark_escalated
  cases hg : get_hire s hire_id with
  | none => rfl
  | some h =>
      exact get_hire_update_store_other s hire_id other
        (fun x => { x with escalated := true }) _ (fun _ => rfl) hne

lemma update_leader_status_get (s : Store) (hire_id : String)
    (v : LeaderStatus) (a : Int) (u : Option String) (h : Hire)
    (hh : get_hire s hire_id = some h) :
    ∃ s2, update_leader_status s hire_id v a u = some s2 ∧
      get_hire s2 hire_id =
        some (update_overall_status { h with leader_status := v }) := by
  unfold update_leader_status
  simp only [hh]
  exact ⟨_, rfl, get_hire_update_store_self s hire_id h
    (fun x => update_overall_status { x with leader_status := v }) _
    (fun x => by simp [update_overall_status_eq]) hh⟩

lemma update_legal_status_get (s : Store) (hire_id : String)
    (v : LegalStatus) (a : Int) (u : Option String) (h : Hire)
    (hh : get_hire s hire_id = some h) :
    ∃ s2, update_legal_status s hire_id v a u = some s2 ∧
      get_hire s2 hire_id =
        some (update_overall_status { h with legal_status := v }) := by
  unfold update_legal_status
  simp only [hh]
  exact ⟨_, rfl, get_hire_update_store_self s hire_id h
    (fun x => update_overall_status { x with legal_status := v }) _
    (fun x => by simp [update_overall_status_eq]) hh⟩

lemma update_devops_status_get (s : Store) (hire_id : String)
    (v : DevOpsStatus) (a : Int) (u : Option String) (h : Hire)
    (hh : get_hire s hire_id = some h) :
    ∃ s2, update_devops_status s hire_id v a u = some s2 ∧
      get_hire s2 hire_id =
        some (update_overall_status { h with devops_status := v }) := by
  unfold update_devops_status
  simp only [hh]
  exact ⟨_, rfl, get_hire_update_store_self s hire_id h
    (fun x => update_overall_status { x with devops_status := v }) _
    (fun x => by simp [update_overall_status_eq]) hh⟩

/-- The four status fields of a hire, the state the derivation and the
sub-status updates act on. -/
def status_quad (h : Hire) :
    LeaderStatus × LegalStatus × DevOpsStatus × HireStatus :=
  (h.leader_status, h.legal_status, h.devops_status, h.status)

/-- One sub-status update (`update_leader_status` for index 0,
`update_legal_status` for 1, `update_devops_status` otherwise) applied
through the store, with the target values `tl`, `tg`, `td`. -/
def apply_sub_update (tl : LeaderStatus) (tg : LegalStatus) (td : DevOpsStatus)
    (hire_id : String) (s : Store) (i : Nat) : Store :=
  if i = 0 then (update_leader_status s hire_id tl 0 none).getD s
  else if i = 1 then (update_legal_status s hire_id tg 0 none).getD s
  else (update_devops_status s hire_id td 0 none).getD s

/-- A sequence of sub-status updates applied in the order given. -/
def apply_order (tl : LeaderStatus) (tg : LegalStatus) (td : DevOpsStatus)
    (hire_id : String) (ord : List Nat) (s : Store) : Store :=
  ord.foldl (apply_sub_update tl tg td hire_id) s

/-- The effect of one sub-status update on the four status fields. -/
def step4 (tl : LeaderStatus) (tg : LegalStatus) (td : DevOpsStatus)
    (q : LeaderStatus × LegalStatus × DevOpsStatus × HireStatus) (i : Nat) :
    LeaderStatus × LegalStatus × DevOpsStatus × HireStatus :=
  if i = 0 then (tl, q.2.1, q.2.2.1, derive4 tl q.2.1 q.2.2.1 q.2.2.2)
  else if i = 1 then (q.1, tg, q.2.2.1, derive4 q.1 tg q.2.2.1 q.2.2.2)
  else (q.1, q.2.1, td, derive4 q.1 q.2.1 td q.2.2.2)

lemma apply_sub_update_get (tl : LeaderStatus) (tg : LegalStatus)
    (td : DevOpsStatus) (hire_id : String) (s : Store) (i : Nat) (h : Hire)
    (hh : get_hire s hire_id = some h) :
    ∃ h2, get_hire (apply_sub_update tl tg td hire_id s i) hire_id = some h2 ∧
      status_quad h2 = step4 tl tg td (status_quad h) i := by
  by_cases h0 : i = 0
  · subst h0
    obtain ⟨s2, hs2, hg2⟩ := update_leader_status_get s hire_id tl 0 none h hh
    refine ⟨update_overall_status { h with leader_status := tl }, ?_, ?_⟩
    · have he : apply_sub_update tl tg td hire_id s 0 =
        (update_leader_status s hire_id tl 0 none).getD s := rfl
      rw [he, hs2]
      exact hg2
    · rw [update_overall_status_eq]
      simp [status_quad, step4]
  · by_cases h1 : i = 1
    · subst h1
      obtain ⟨s2, hs2, hg2⟩ := update_legal_status_get s hire_id tg 0 none h hh
      refine ⟨update_overall_status { h with legal_status := tg }, ?_, ?_⟩
      · have he : apply_sub_update tl tg td hire_id s 1 =
          (update_legal_status s hire_id tg 0 none).getD s := rfl
        rw [he, hs2]
        exact hg2
      · rw [update_overall_status_eq]
        simp [status_quad, step4]
    · obtain ⟨s2, hs2, hg2⟩ := update_devops_status_get s hire_id td 0 none h hh
      refine ⟨update_overall_status { h with devops_status := td }, ?_, ?_⟩
      · unfold apply_sub_update
        rw [if_neg h0, if_neg h1, hs2]
        exact hg2
      · rw [update_overall_status_eq]
        simp [status_quad, step4, h0, h1]

lemma apply_order_get (tl : LeaderStatus) (tg : LegalStatus)
    (td : DevOpsStatus) (hire_id : String) :
    ∀ (ord : List Nat) (s : Store) (h : Hire),
      get_hire s hire_id = some h →
      ∃ h2, get_hire (apply_order tl tg td hire_id ord s) hire_id = some h2 ∧
        status_quad h2 = ord.foldl (step4 tl tg td) (status_quad h) := by
  intro ord
  induction ord with
  | nil => exact fun s h hh => ⟨h, hh, rfl⟩
  | cons i rest ih =>
      intro s h hh
      obtain ⟨h2, hg2, hq2⟩ := apply_sub_update_get tl tg td hire_id s i h hh
      obtain ⟨h3, hg3, hq3⟩ := ih _ h2 hg2
      refine ⟨h3, ?_, ?_⟩
      · simpa [apply_order] using hg3
      · rw [hq3, hq2]
        simp [List.foldl_cons]

/-!
## Concrete fixtures

Small stores built through the operations themselves, used by the
counterexamples, scenario conjuncts and witnesses.
-/

/-- A store holding one freshly created hire `"AB12"` starting on day 5. -/
def sample_created : Store :=
  create_hire ⟨[], []⟩ "AB12" "Dana Fox" 5 "Engineer" "lead" "legal"
    "devops" "dana@example.com" 555 1

/-- The same store after the creator marks the hire completed. -/
def sample_completed : Store :=
  (mark_completed sample_created "AB12" 1 none).getD sample_created

/-- The same store after the creator then reopens the hire: overall
status `IN_PROGRESS` while all three sub-statuses are still pending. -/
def sample_reopened : Store :=
  (reopen sample_completed "AB12" 1 none).getD sample_completed

/-- C1: the claim says the all-pending branch of the derivation yields
`CREATED`.  The code has no such branch: it keeps the current overall
status.  On the reachable state built by create, complete, reopen — a
hire with overall `IN_PROGRESS` and all three sub-statuses `PENDING` —
re-deriving returns `IN_PROGRESS`, not the `CREATED` the claim
demands. -/
theorem C1_counterexample_all_pending_keeps_current :
    ((get_hire sample_reopened "AB12").map (fun h =>
        (h.status, h.leader_status, h.legal_status, h.devops_status,
          (update_overall_status h).status)) =
      some (HireStatus.IN_PROGRESS, LeaderStatus.PENDING,
        LegalStatus.PENDING, DevOpsStatus.PENDING, HireStatus.IN_PROGRESS)) ∧
    HireStatus.IN_PROGRESS ≠ HireStatus.CREATED := by
  exact ⟨rfl, by decide⟩

/-- C1 (amended): for every hire, re-deriving the overall status yields
`COMPLETED` unchanged when the current status is `COMPLETED`;
`READY_FOR_DAY1` when all three sub-statuses are done; `IN_PROGRESS`
when any sub-status is not pending; and otherwise leaves the current
overall status unchanged (so a hire still at `CREATED` stays `CREATED`,
but a reopened hire with all sub-statuses pending stays
`IN_PROGRESS`). -/
theorem C1_derive_overall_status_characterized (h : Hire) :
    (update_overall_status h).status =
      if h.status = HireStatus.COMPLETED then h.status
      else if h.leader_status = LeaderStatus.ACKNOWLEDGED ∧
              h.legal_status = LegalStatus.DOCS_SENT ∧
              h.devops_status = DevOpsStatus.ACCESS_GRANTED then
        HireStatus.READY_FOR_DAY1
      else if h.leader_status ≠ LeaderStatus.PENDING ∨
              h.legal_status ≠ LegalStatus.PENDING ∨
              h.devops_status ≠ DevOpsStatus.PENDING then
        HireStatus.IN_PROGRESS
      else h.status := by
  rw [update_overall_status_eq]
  show derive4 h.leader_status h.legal_status h.devops_status h.status = _
  unfold derive4
  split_ifs <;> simp_all

/-- C3: the claim says reopen is effective only when the overall status
is `COMPLETED`.  The counterexample reopens the freshly created hire
(overall `CREATED`): the handler answers ok, the status becomes
`IN_PROGRESS`, and a `REOPENED` history row is appended — reopen is
effective on a non-completed hire. -/
theorem C3_counterexample_reopen_works_on_created :
    ((get_hire sample_created "AB12").map Hire.status =
      some HireStatus.CREATED) ∧
    (reopen_hire ⟨[], 0, 3, 1, 24⟩ ⟨1, none⟩ sample_created "AB12").2 =
      HandlerAnswer.ok ∧
    ((get_hire (reopen_hire ⟨[], 0, 3, 1, 24⟩ ⟨1, none⟩ sample_created
        "AB12").1 "AB12").map Hire.status = some HireStatus.IN_PROGRESS) ∧
    ((reopen_hire ⟨[], 0, 3, 1, 24⟩ ⟨1, none⟩ sample_created
        "AB12").1.history.filter (fun e => e.action == "REOPENED")).length
      = 1 := by
  exact ⟨rfl, rfl, rfl, rfl⟩

/-- C3 (amended): for every existing hire and every actor the policy
authorizes for reopen, the reopen handler is effective regardless of the
current overall status — the `COMPLETED`-only gate exists only in the
keyboard rendering, not in the handler or the service — and it always
sets the overall status to `IN_PROGRESS` (never back to `CREATED`, even
when all sub-statuses are pending) and appends exactly one `REOPENED`
history row. -/
theorem C3_reopen_always_in_progress (cfg : BotSettings)
    (user : CallbackUser) (s : Store) (hire_id : String) (hire : Hire)
    (hh : get_hire s hire_id = some hire)
    (hauth : is_user_authorized_for_action cfg user hire "reopen" = true) :
    (reopen_hire cfg user s hire_id).2 = HandlerAnswer.ok ∧
    get_hire (reopen_hire cfg user s hire_id).1 hire_id =
      some { hire with status := HireStatus.IN_PROGRESS } ∧
    (reopen_hire cfg user s hire_id).1.history =
      s.history ++
        [{ hire_id := hire_id, actor_id := user.id,
           actor_username := user.username, action := "REOPENED",
           details := some ("Reopened from " ++ hire.status.value) }] := by
  unfold reopen_hire
  simp only [hh, hauth, Bool.not_true, Bool.false_eq_true, if_false]
  unfold reopen
  simp only [hh]
  refine ⟨by trivial, ?_, by trivial⟩
  exact get_hire_update_store_self s hire_id hire
    (fun x => { x with status := HireStatus.IN_PROGRESS }) _ (fun _ => rfl) hh

/-- Witness for the amended C3 theorem at the concrete created hire. -/
theorem C3_reopen_always_in_progress_witness :
    (reopen_hire ⟨[], 0, 3, 1, 24⟩ ⟨1, none⟩ sample_created "AB12").2 =
      HandlerAnswer.ok ∧
    get_hire (reopen_hire ⟨[], 0, 3, 1, 24⟩ ⟨1, none⟩ sample_created
        "AB12").1 "AB12" =
      some { new_hire "AB12" "Dana Fox" 5 "Engineer" "lead" "legal"
        "devops" "dana@example.com" 555 1 with
          status := HireStatus.IN_PROGRESS } ∧
    (reopen_hire ⟨[], 0, 3, 1, 24⟩ ⟨1, none⟩ sample_created
        "AB12").1.history =
      sample_created.history ++
        [{ hire_id := "AB12", actor_id := 1,
           actor_username := none, action := "REOPENED",
           details := some ("Reopened from " ++
             (new_hire "AB12" "Dana Fox" 5 "Engineer" "lead" "legal"
               "devops" "dana@example.com" 555 1).status.value) }] :=
  C3_reopen_always_in_progress ⟨[], 0, 3, 1, 24⟩ ⟨1, none⟩ sample_created
    "AB12" _ rfl rfl

/-- C10: for an id that resolves to no hire, the three one-shot flag
setters return normally and leave the store unchanged, while the
StatusEngine operations signal the unknown id to the caller by
returning `none`. -/
theorem C10_flag_setters_silent_on_unknown_id (s : Store)
    (hire_id : String) (v : LeaderStatus) (w : LegalStatus)
    (x : DevOpsStatus) (a : Int) (u : Option String) (note : String)
    (hnone : get_hire s hire_id = none) :
    mark_legal_reminded s hire_id = s ∧
    mark_devops_reminded s hire_id = s ∧
    mark_escalated s hire_id = s ∧
    update_leader_status s hire_id v a u = none ∧
    update_legal_status s hire_id w a u = none ∧
    update_devops_status s hire_id x a u = none ∧
    mark_completed s hire_id a u = none ∧
    reopen s hire_id a u = none ∧
    add_note s hire_id note a u = none := by
  unfold mark_legal_reminded mark_devops_reminded mark_escalated
    update_leader_status update_legal_status update_devops_status
    mark_completed reopen add_note
  simp [hnone]

/-- Witness for C10 on the unknown id `"ZZ99"` in the sample store. -/
theorem C10_flag_setters_silent_witness :
    mark_legal_reminded sample_created "ZZ99" = sample_created ∧
    mark_devops_reminded sample_created "ZZ99" = sample_created ∧
    mark_escalated sample_created "ZZ99" = sample_created ∧
    update_leader_status sample_created "ZZ99"
      LeaderStatus.ACKNOWLEDGED 7 none = none ∧
    update_legal_status sample_created "ZZ99"
      LegalStatus.DOCS_SENT 7 none = none ∧
    update_devops_status sample_created "ZZ99"
      DevOpsStatus.ACCESS_GRANTED 7 none = none ∧
    mark_completed sample_created "ZZ99" 7 none = none ∧
    reopen sample_created "ZZ99" 7 none = none ∧
    add_note sample_created "ZZ99" "ping" 7 none = none :=
  C10_flag_setters_silent_on_unknown_id sample_created "ZZ99"
    LeaderStatus.ACKNOWLEDGED LegalStatus.DOCS_SENT
    DevOpsStatus.ACCESS_GRANTED 7 none "ping" rfl

/-- C9: starting from a freshly created hire (overall `CREATED`, all
sub-statuses pending), applying the three sub-status updates — each one
setting its dimension to the chosen target value and re-deriving — in
any of the six orders yields the same overall status as the canonical
order, for every one of the 2×2×2 target combinations; and re-deriving
the final row without any sub-status change leaves it unchanged. -/
theorem C9_order_independent_idempotent (s : Store) (hire_id : String)
    (h : Hire) (tl : LeaderStatus) (tg : LegalStatus) (td : DevOpsStatus)
    (ord : List Nat)
    (hh : get_hire s hire_id = some h)
    (hst : h.status = HireStatus.CREATED)
    (hl : h.leader_status = LeaderStatus.PENDING)
    (hg : h.legal_status = LegalStatus.PENDING)
    (hd : h.devops_status = DevOpsStatus.PENDING)
    (hord : ord ∈ [[0, 1, 2], [0, 2, 1], [1, 0, 2],
      [1, 2, 0], [2, 0, 1], [2, 1, 0]]) :
    ∃ hfin hcan,
      get_hire (apply_order tl tg td hire_id ord s) hire_id = some hfin ∧
      get_hire (apply_order tl tg td hire_id [0, 1, 2] s) hire_id =
        some hcan ∧
      hfin.status = hcan.status ∧
      update_overall_status hfin = hfin := by
  obtain ⟨hfin, hgf, hq1⟩ := apply_order_get tl tg td hire_id ord s h hh
  obtain ⟨hcan, hgc, hq2⟩ := apply_order_get tl tg td hire_id [0, 1, 2] s h hh
  have hqh : status_quad h = (LeaderStatus.PENDING, LegalStatus.PENDING,
      DevOpsStatus.PENDING, HireStatus.CREATED) := by
    simp [status_quad, hst, hl, hg, hd]
  rw [hqh] at hq1 hq2
  simp only [List.mem_cons, List.mem_singleton, List.not_mem_nil,
    or_false] at hord
  refine ⟨hfin, hcan, hgf, hgc, ?_, ?_⟩
  · show (status_quad hfin).2.2.2 = (status_quad hcan).2.2.2
    rw [hq1, hq2]
    clear hq1 hq2 hgf hgc hh hqh hst hl hg hd
    rcases hord with rfl | rfl | rfl | rfl | rfl | rfl <;>
      (revert tl tg td; decide)
  · rw [update_overall_status_eq]
    have hder : derive4 hfin.leader_status hfin.legal_status
        hfin.devops_status hfin.status = hfin.status := by
      show derive4 (status_quad hfin).1 (status_quad hfin).2.1
        (status_quad hfin).2.2.1 (status_quad hfin).2.2.2 =
        (status_quad hfin).2.2.2
      rw [hq1]
      clear hq1 hq2 hgf hgc hh hqh hst hl hg hd
      rcases hord with rfl | rfl | rfl | rfl | rfl | rfl <;>
        (revert tl tg td; decide)
    rw [hder]

/-- Witness for C9: the fresh hire `"AB12"`, full targets, applied in
the order devops, leader, legal. -/
theorem C9_order_independent_witness :
    ∃ hfin hcan,
      get_hire (apply_order LeaderStatus.ACKNOWLEDGED LegalStatus.DOCS_SENT
        DevOpsStatus.ACCESS_GRANTED "AB12" [2, 0, 1] sample_created)
        "AB12" = some hfin ∧
      get_hire (apply_order LeaderStatus.ACKNOWLEDGED LegalStatus.DOCS_SENT
        DevOpsStatus.ACCESS_GRANTED "AB12" [0, 1, 2] sample_created)
        "AB12" = some hcan ∧
      hfin.status = hcan.status ∧
      update_overall_status hfin = hfin :=
  C9_order_independent_idempotent sample_created "AB12" _
    LeaderStatus.ACKNOWLEDGED LegalStatus.DOCS_SENT
    DevOpsStatus.ACCESS_GRANTED [2, 0, 1] rfl rfl rfl rfl rfl
    (by decide)

/-- C8: invoking a sub-status action on a hire whose own dimension is
already done is a benign no-op — the handler answers with the
already-done signal, mutates nothing and appends no duplicate history
row — for each dimension independently: leader acknowledgement on an
already-ACKNOWLEDGED leader, docs_sent on an already-DOCS_SENT legal,
access_granted on an already-ACCESS_GRANTED devops, whatever the other
two sub-statuses are. -/
theorem C8_already_done_benign_noop (cfg : BotSettings)
    (user : CallbackUser) (s : Store) (hire_id : String) (hire : Hire)
    (hh : get_hire s hire_id = some hire) :
    (hire.leader_status = LeaderStatus.ACKNOWLEDGED →
      is_user_authorized_for_action cfg user hire "leader_ack" = true →
      leader_acknowledge cfg user s hire_id =
        (s, HandlerAnswer.alreadyDone)) ∧
    (hire.legal_status = LegalStatus.DOCS_SENT →
      is_user_authorized_for_action cfg user hire "docs_sent" = true →
      docs_sent cfg user s hire_id = (s, HandlerAnswer.alreadyDone)) ∧
    (hire.devops_status = DevOpsStatus.ACCESS_GRANTED →
      is_user_authorized_for_action cfg user hire "access_granted" = true →
      access_granted cfg user s hire_id =
        (s, HandlerAnswer.alreadyDone)) := by
  refine ⟨?_, ?_, ?_⟩ <;> intro hstat hauth
  · unfold leader_acknowledge
    simp [hh, hauth, hstat]
  · unfold docs_sent
    simp [hh, hauth, hstat]
  · unfold access_granted
    simp [hh, hauth, hstat]

/-- A hire whose leader has already acknowledged while legal and devops
are still pending; the leader identity is resolved to user 1. -/
def sample_leader_done_hire : Hire :=
  { new_hire "A1" "Ana One" 5 "Dev" "lead" "legal" "devops"
      "ana@example.com" 11 9 with
    leader_id := some 1, leader_status := LeaderStatus.ACKNOWLEDGED }

/-- A hire whose legal documents are already sent while leader and
devops are still pending; the legal identity is resolved to user 1. -/
def sample_legal_done_hire : Hire :=
  { new_hire "B2" "Bob Two" 6 "Dev" "lead" "legal" "devops"
      "bob@example.com" 11 9 with
    legal_id := some 1, legal_status := LegalStatus.DOCS_SENT }

/-- A hire whose access is already granted while leader and legal are
still pending; the devops identity is resolved to user 1. -/
def sample_devops_done_hire : Hire :=
  { new_hire "C3" "Cal Three" 7 "Dev" "lead" "legal" "devops"
      "cal@example.com" 11 9 with
    devops_id := some 1, devops_status := DevOpsStatus.ACCESS_GRANTED }

/-- A store holding the three one-dimension-done hires. -/
def sample_mixed : Store :=
  ⟨[sample_leader_done_hire, sample_legal_done_hire,
    sample_devops_done_hire], []⟩

/-- Witness for C8: user 1, the assignee of exactly the finished
dimension on each hire, re-invokes that dimension's action on a hire
whose other two dimensions are still pending. -/
theorem C8_already_done_benign_noop_witness :
    leader_acknowledge ⟨[], 0, 3, 1, 24⟩ ⟨1, none⟩ sample_mixed "A1" =
      (sample_mixed, HandlerAnswer.alreadyDone) ∧
    docs_sent ⟨[], 0, 3, 1, 24⟩ ⟨1, none⟩ sample_mixed "B2" =
      (sample_mixed, HandlerAnswer.alreadyDone) ∧
    access_granted ⟨[], 0, 3, 1, 24⟩ ⟨1, none⟩ sample_mixed "C3" =
      (sample_mixed, HandlerAnswer.alreadyDone) :=
  ⟨(C8_already_done_benign_noop ⟨[], 0, 3, 1, 24⟩ ⟨1, none⟩ sample_mixed
      "A1" sample_leader_done_hire rfl).1 rfl (by decide),
   (C8_already_done_benign_noop ⟨[], 0, 3, 1, 24⟩ ⟨1, none⟩ sample_mixed
      "B2" sample_legal_done_hire rfl).2.1 rfl (by decide),
   (C8_already_done_benign_noop ⟨[], 0, 3, 1, 24⟩ ⟨1, none⟩ sample_mixed
      "C3" sample_devops_done_hire rfl).2.2 rfl (by decide)⟩


/-- C7: for each of the six gated actions, an actor the policy does not
authorize for it leaves the store — hires and history both — exactly as
it was. -/
theorem C7_unauthorized_never_mutates (cfg : BotSettings)
    (user : CallbackUser) (s : Store) (hire_id note : String)
    (hire : Hire) (action : String)
    (hmem : action ∈ ["leader_ack", "docs_sent", "access_granted",
      "complete", "reopen", "add_note"])
    (hh : get_hire s hire_id = some hire)
    (hauth : is_user_authorized_for_action cfg user hire action = false) :
    (handle_action cfg user s hire_id note action).1 = s := by
  simp only [List.mem_cons, List.mem_singleton, List.not_mem_nil,
    or_false] at hmem
  rcases hmem with rfl | rfl | rfl | rfl | rfl | rfl
  · unfold handle_action leader_acknowledge
    simp [hh, hauth]
  · unfold handle_action docs_sent
    simp [hh, hauth]
  · unfold handle_action access_granted
    simp [hh, hauth]
  · unfold handle_action mark_complete
    simp [hh, hauth]
  · unfold handle_action reopen_hire
    simp [hh, hauth]
  · unfold handle_action cmd_note
    have hred : is_user_authorized_for_action cfg user hire "add_note" =
        (user.id == hire.creator_id ||
          cfg.admin_ids_list.contains user.id) := rfl
    rw [hred, Bool.or_eq_false_iff] at hauth
    obtain ⟨h1, h2⟩ := hauth
    have h2m : user.id ∉ cfg.admin_ids_list := by simpa using h2
    by_cases hn : note.length > 1000
    · simp [hn]
    · simp [hn, hh, h1, h2, h2m]

/-- Witness for C7: a stranger (id 42, no admin rights) trying to
reopen the sample hire changes nothing. -/
theorem C7_unauthorized_never_mutates_witness :
    (handle_action ⟨[], 0, 3, 1, 24⟩ ⟨42, none⟩ sample_created "AB12"
      "note" "reopen").1 = sample_created :=
  C7_unauthorized_never_mutates ⟨[], 0, 3, 1, 24⟩ ⟨42, none⟩
    sample_created "AB12" "note" _ "reopen" (by decide) rfl rfl

/-!
## Scheduler pass decomposition

The notifications one `process_hire_reminders` call attempts, and the
flag writes it persists, depend only on the fetched row (`hire_events`,
`process_marks`); the store threading through `check_reminders` is then
untangled by the fold lemmas below.
-/

/-- The notifications `process_hire_reminders` attempts for one hire. -/
def hire_events (cfg : BotSettings) (now : Int) (h : Hire) :
    List Notification :=
  let days := days_until now h.start_date
  (if h.legal_status = LegalStatus.PENDING ∧ h.legal_reminded = false ∧
      days ≤ cfg.LEGAL_REMINDER_DAYS ∧ days > 0 then
    [Notification.legalReminder h.hire_id]
  else []) ++
  ((if h.devops_status = DevOpsStatus.PENDING ∧ h.devops_reminded = false ∧
      days ≤ cfg.DEVOPS_REMINDER_DAYS ∧ days > 0 then
    [Notification.devopsReminder h.hire_id]
  else []) ++
  (if h.escalated = false ∧ days < 0 then
    if h.legal_status = LegalStatus.PENDING ∨
        h.devops_status = DevOpsStatus.PENDING then
      if (days.natAbs * 24 : Int) ≥ cfg.ESCALATION_HOURS then
        [Notification.escalation h.hire_id]
      else []
    else []
  else []))

/-- The flag writes one `process_hire_reminders` call persists for the
processed hire: each reminder flag only when `send_reminder` reported
success, the escalated flag on eligibility alone. -/
def process_marks (cfg : BotSettings) (nf : Notifier) (now : Int)
    (h : Hire) : Hire :=
  let days := days_until now h.start_date
  let h1 := if h.legal_status = LegalStatus.PENDING ∧ h.legal_reminded = false ∧
      days ≤ cfg.LEGAL_REMINDER_DAYS ∧ days > 0 then
      (if send_reminder nf h.chat_id h.legal_id then
        { h with legal_reminded := true }
      else h)
    else h
  let h2 := if h.devops_status = DevOpsStatus.PENDING ∧ h.devops_reminded = false ∧
      days ≤ cfg.DEVOPS_REMINDER_DAYS ∧ days > 0 then
      (if send_reminder nf h.chat_id h.devops_id then
        { h1 with devops_reminded := true }
      else h1)
    else h1
  if h.escalated = false ∧ days < 0 then
    if h.legal_status = LegalStatus.PENDING ∨
        h.devops_status = DevOpsStatus.PENDING then
      if (days.natAbs * 24 : Int) ≥ cfg.ESCALATION_HOURS then
        { h2 with escalated := true }
      else h2
    else h2
  else h2

lemma process_hire_reminders_snd (cfg : BotSettings) (nf : Notifier)
    (now : Int) (s : Store) (h : Hire) :
    (process_hire_reminders cfg nf now s h).2 = hire_events cfg now h := by
  unfold process_hire_reminders hire_events send_legal_reminder
    send_devops_reminder send_escalation
  dsimp only
  split_ifs <;> rfl

lemma process_store_self (cfg : BotSettings) (nf : Notifier) (now : Int)
    (s : Store) (h : Hire) (hh : get_hire s h.hire_id = some h) :
    get_hire (process_hire_reminders cfg nf now s h).1 h.hire_id =
      some (process_marks cfg nf now h) := by
  unfold process_hire_reminders process_marks send_legal_reminder
    send_devops_reminder send_escalation
  dsimp only
  split_ifs <;>
    first
      | exact hh
      | exact get_hire_mark_legal_self _ _ _ hh
      | exact get_hire_mark_devops_self _ _ _ hh
      | exact get_hire_mark_escalated_self _ _ _ hh
      | exact get_hire_mark_devops_self _ _ _
          (get_hire_mark_legal_self _ _ _ hh)
      | exact get_hire_mark_escalated_self _ _ _
          (get_hire_mark_legal_self _ _ _ hh)
      | exact get_hire_mark_escalated_self _ _ _
          (get_hire_mark_devops_self _ _ _ hh)
      | exact get_hire_mark_escalated_self _ _ _
          (get_hire_mark_devops_self _ _ _
            (get_hire_mark_legal_self _ _ _ hh))

lemma process_store_other (cfg : BotSettings) (nf : Notifier) (now : Int)
    (s : Store) (h : Hire) (other : String) (hne : other ≠ h.hire_id) :
    get_hire (process_hire_reminders cfg nf now s h).1 other =
      get_hire s other := by
  unfold process_hire_reminders send_legal_reminder send_devops_reminder
    send_escalation
  dsimp only
  split_ifs <;>
    simp [get_hire_mark_legal_other, get_hire_mark_devops_other,
      get_hire_mark_escalated_other, hne]

lemma check_foldl_snd (cfg : BotSettings) (nf : Notifier) (now : Int) :
    ∀ (l : List Hire) (s : Store) (acc : List Notification),
      (l.foldl (check_step cfg nf now) (s, acc)).2 =
        acc ++ l.flatMap (fun h =>
          if h.status = HireStatus.COMPLETED then []
          else hire_events cfg now h) := by
  intro l
  induction l with
  | nil => intro s acc; simp
  | cons h t ih =>
      intro s acc
      rw [List.foldl_cons]
      by_cases hc : h.status = HireStatus.COMPLETED
      · rw [show check_step cfg nf now (s, acc) h = (s, acc) from by
          simp [check_step, hc]]
        simp [ih, hc]
      · rw [show check_step cfg nf now (s, acc) h =
          ((process_hire_reminders cfg nf now s h).1,
            acc ++ (process_hire_reminders cfg nf now s h).2) from by
          simp [check_step, hc]]
        rw [ih]
        simp [hc, process_hire_reminders_snd]

lemma check_reminders_snd (cfg : BotSettings) (nf : Notifier) (now : Int)
    (s : Store) :
    (check_reminders cfg nf now s).2 =
      (get_hires_needing_reminders s).flatMap (fun h =>
        if h.status = HireStatus.COMPLETED then []
        else hire_events cfg now h) := by
  unfold check_reminders
  simpa using check_foldl_snd cfg nf now (get_hires_needing_reminders s) s []

lemma check_foldl_untouched (cfg : BotSettings) (nf : Notifier) (now : Int) :
    ∀ (l : List Hire) (s : Store) (acc : List Notification) (i : String),
      (∀ h' ∈ l, h'.hire_id ≠ i) →
      get_hire ((l.foldl (check_step cfg nf now) (s, acc)).1) i =
        get_hire s i := by
  intro l
  induction l with
  | nil => intro s acc i _; rfl
  | cons h t ih =>
      intro s acc i hall
      have hhi : h.hire_id ≠ i := hall h (List.mem_cons_self h t)
      have hti : ∀ h' ∈ t, h'.hire_id ≠ i :=
        fun h' hm => hall h' (List.mem_cons_of_mem h hm)
      rw [List.foldl_cons]
      by_cases hc : h.status = HireStatus.COMPLETED
      · rw [show check_step cfg nf now (s, acc) h = (s, acc) from by
          simp [check_step, hc]]
        exact ih s acc i hti
      · rw [show check_step cfg nf now (s, acc) h =
          ((process_hire_reminders cfg nf now s h).1,
            acc ++ (process_hire_reminders cfg nf now s h).2) from by
          simp [check_step, hc]]
        rw [ih _ _ i hti]
        exact process_store_other cfg nf now s h i (Ne.symm hhi)

lemma check_foldl_touched (cfg : BotSettings) (nf : Notifier) (now : Int) :
    ∀ (l : List Hire) (s : Store) (acc : List Notification) (h : Hire),
      l.Pairwise (fun a b => a.hire_id ≠ b.hire_id) → h ∈ l →
      get_hire s h.hire_id = some h →
      get_hire ((l.foldl (check_step cfg nf now) (s, acc)).1) h.hire_id =
        some (if h.status = HireStatus.COMPLETED then h
          else process_marks cfg nf now h) := by
  intro l
  induction l with
  | nil => intro s acc h _ hmem; exact absurd hmem (List.not_mem_nil h)
  | cons a t ih =>
      intro s acc h hpw hmem hh
      obtain ⟨hhead, hpwt⟩ := List.pairwise_cons.mp hpw
      rw [List.foldl_cons]
      rcases List.mem_cons.mp hmem with rfl | hmem'
      · have hti : ∀ h' ∈ t, h'.hire_id ≠ h.hire_id :=
          fun h' hm => (hhead h' hm).symm
        by_cases hc : h.status = HireStatus.COMPLETED
        · rw [show check_step cfg nf now (s, acc) h = (s, acc) from by
            simp [check_step, hc]]
          rw [check_foldl_untouched cfg nf now t s acc h.hire_id hti, hh]
          simp [hc]
        · rw [show check_step cfg nf now (s, acc) h =
            ((process_hire_reminders cfg nf now s h).1,
              acc ++ (process_hire_reminders cfg nf now s h).2) from by
            simp [check_step, hc]]
          rw [check_foldl_untouched cfg nf now t _ _ h.hire_id hti]
          rw [process_store_self cfg nf now s h hh]
          simp [hc]
      · have hah : a.hire_id ≠ h.hire_id := hhead h hmem'
        by_cases hc : a.status = HireStatus.COMPLETED
        · rw [show check_step cfg nf now (s, acc) a = (s, acc) from by
            simp [check_step, hc]]
          exact ih s acc h hpwt hmem' hh
        · rw [show check_step cfg nf now (s, acc) a =
            ((process_hire_reminders cfg nf now s a).1,
              acc ++ (process_hire_reminders cfg nf now s a).2) from by
            simp [check_step, hc]]
          refine ih _ _ h hpwt hmem' ?_
          rw [process_store_other cfg nf now s a h.hire_id (Ne.symm hah)]
          exact hh

lemma get_hire_of_pairwise (l : List Hire) (hist : List StatusHistory)
    (h : Hire)
    (hpw : l.Pairwise (fun a b => a.hire_id ≠ b.hire_id)) (hmem : h ∈ l) :
    get_hire ⟨l, hist⟩ h.hire_id = some h := by
  induction l with
  | nil => exact absurd hmem (List.not_mem_nil h)
  | cons a t ih =>
      obtain ⟨hhead, hpwt⟩ := List.pairwise_cons.mp hpw
      rcases List.mem_cons.mp hmem with rfl | hmem'
      · unfold get_hire
        simp [List.find?]
      · have hne : (a.hire_id == h.hire_id) = false :=
          beq_eq_false_iff_ne.mpr (hhead h hmem')
        unfold get_hire at ih ⊢
        simpa [List.find?, hne] using ih hpwt hmem'

lemma pairwise_ids_unique (l : List Hire)
    (hpw : l.Pairwise (fun a b => a.hire_id ≠ b.hire_id))
    (a b : Hire) (ha : a ∈ l) (hb : b ∈ l)
    (heq : a.hire_id = b.hire_id) : a = b := by
  by_contra hne
  exact (hpw.forall (fun x y hxy => hxy.symm) ha hb hne) heq

lemma escalation_mem_hire_events (cfg : BotSettings) (now : Int)
    (u : Hire) (i : String) :
    (Notification.escalation i ∈ hire_events cfg now u) ↔
      (i = u.hire_id ∧ u.escalated = false ∧
       days_until now u.start_date < 0 ∧
       (u.legal_status = LegalStatus.PENDING ∨
         u.devops_status = DevOpsStatus.PENDING) ∧
       ((days_until now u.start_date).natAbs * 24 : Int) ≥
         cfg.ESCALATION_HOURS) := by
  unfold hire_events
  dsimp only
  split_ifs <;> simp_all

lemma legal_reminder_mem_hire_events (cfg : BotSettings) (now : Int)
    (u : Hire) (i : String) :
    (Notification.legalReminder i ∈ hire_events cfg now u) ↔
      (i = u.hire_id ∧ u.legal_status = LegalStatus.PENDING ∧
       u.legal_reminded = false ∧
       days_until now u.start_date ≤ cfg.LEGAL_REMINDER_DAYS ∧
       days_until now u.start_date > 0) := by
  unfold hire_events
  dsimp only
  split_ifs <;> simp_all

lemma process_marks_flags (cfg : BotSettings) (nf : Notifier) (now : Int)
    (h : Hire) :
    (process_marks cfg nf now h).legal_reminded =
      (h.legal_reminded ||
        (decide (h.legal_status = LegalStatus.PENDING ∧
            h.legal_reminded = false ∧
            days_until now h.start_date ≤ cfg.LEGAL_REMINDER_DAYS ∧
            days_until now h.start_date > 0) &&
          send_reminder nf h.chat_id h.legal_id)) ∧
    (process_marks cfg nf now h).devops_reminded =
      (h.devops_reminded ||
        (decide (h.devops_status = DevOpsStatus.PENDING ∧
            h.devops_reminded = false ∧
            days_until now h.start_date ≤ cfg.DEVOPS_REMINDER_DAYS ∧
            days_until now h.start_date > 0) &&
          send_reminder nf h.chat_id h.devops_id)) ∧
    (process_marks cfg nf now h).escalated =
      (h.escalated ||
        (decide (h.escalated = false ∧ days_until now h.start_date < 0) &&
          decide (h.legal_status = LegalStatus.PENDING ∨
            h.devops_status = DevOpsStatus.PENDING) &&
          decide (((days_until now h.start_date).natAbs * 24 : Int) ≥
            cfg.ESCALATION_HOURS))) := by
  unfold process_marks
  dsimp only
  split_ifs <;> simp_all

lemma check_reminders_get (cfg : BotSettings) (nf : Notifier) (now : Int)
    (s : Store) (h : Hire) (hmem : h ∈ s.hires)
    (hpw : s.hires.Pairwise (fun a b => a.hire_id ≠ b.hire_id)) :
    get_hire (check_reminders cfg nf now s).1 h.hire_id =
      some (if needs_reminders_row h = true then
          (if h.status = HireStatus.COMPLETED then h
            else process_marks cfg nf now h)
        else h) := by
  obtain ⟨rows, hist⟩ := s
  unfold check_reminders get_hires_needing_reminders
  dsimp only at hmem hpw ⊢
  by_cases hq : needs_reminders_row h = true
  · have hmf : h ∈ rows.filter needs_reminders_row :=
      List.mem_filter.mpr ⟨hmem, hq⟩
    have hpwf : (rows.filter needs_reminders_row).Pairwise
        (fun a b => a.hire_id ≠ b.hire_id) :=
      hpw.sublist (List.filter_sublist rows)
    rw [check_foldl_touched cfg nf now _ _ [] h hpwf hmf
      (get_hire_of_pairwise rows hist h hpw hmem)]
    simp [hq]
  · have hall : ∀ h' ∈ rows.filter needs_reminders_row,
        h'.hire_id ≠ h.hire_id := by
      intro h' hm' heq
      have hm'' := List.mem_filter.mp hm'
      have he : h' = h := pairwise_ids_unique rows hpw h' h hm''.1 hmem heq
      rw [he] at hm''
      exact hq hm''.2
    rw [check_foldl_untouched cfg nf now _ _ [] h.hire_id hall]
    rw [get_hire_of_pairwise rows hist h hpw hmem]
    simp [hq]

/-- A notifier whose every delivery succeeds. -/
def nf_ok : Notifier :=
  ⟨fun _ => true⟩

/-- A notifier whose every delivery raises `TelegramBadRequest`. -/
def nf_down : Notifier :=
  ⟨fun _ => false⟩

/-- An overdue hire: start one day in the past (day −1 against now = 0),
legal still pending, devops already done, never escalated. -/
def sample_overdue_hire : Hire :=
  { new_hire "E1" "Lee Woo" (-1) "SRE" "lead" "legal" "devops"
      "lee@example.com" 900 1 with
    devops_status := DevOpsStatus.ACCESS_GRANTED }

/-- A store holding only `sample_overdue_hire`. -/
def sample_overdue : Store :=
  ⟨[sample_overdue_hire], []⟩

/-- A hire created with start date three days ahead (day 3 against
now = 0), everything pending. -/
def sample_upcoming_hire : Hire :=
  new_hire "L1" "Kim Ray" 3 "QA" "lead" "legal" "devops"
    "kim@example.com" 777 1

/-- A store holding only `sample_upcoming_hire`. -/
def sample_upcoming : Store :=
  ⟨[sample_upcoming_hire], []⟩

/-- A hire marked `COMPLETED` while its legal dimension is still
pending, unreminded, with the start date two days ahead. -/
def sample_completed_pending_hire : Hire :=
  { new_hire "C1" "Ada Lin" 2 "PM" "lead" "legal" "devops"
      "ada@example.com" 800 1 with
    status := HireStatus.COMPLETED }

/-- A store holding only `sample_completed_pending_hire`. -/
def sample_completed_pending : Store :=
  ⟨[sample_completed_pending_hire], []⟩

/-- C2: the `send_reminders` pass of `bot/scheduler/reminders.py` emits
a legal reminder for a hire whose overall status is `COMPLETED`,
because the `exclude_completed` clause of `get_hires_by_status` compares
the `HireStatus` enum class itself with `COMPLETED` — a constant-true
predicate — so `get_open_hires` returns completed hires too, and the
per-hire checks never look at the overall status.  The wired
`check_reminders` pass of `bot/services/scheduler.py` filters correctly
and emits nothing for the same store. -/
theorem C2_completed_hire_still_gets_reminder :
    Notification.legalReminder "C1" ∈
      (send_reminders ⟨[], 800, 3, 1, 24⟩ nf_ok 0
        sample_completed_pending).2 ∧
    (check_reminders ⟨[], 800, 3, 1, 24⟩ nf_ok 0
      sample_completed_pending).2 = [] ∧
    get_open_hires sample_completed_pending =
      sample_completed_pending.hires := by
  refine ⟨?_, ?_, ?_⟩ <;> decide

/-- C5: the claim says every one-shot flag is persisted only after the
notifier reports success.  With a notifier that fails every delivery,
the escalation path of `bot/services/scheduler.py` still persists the
`escalated` flag (its `mark_escalated` call sits after
`try/except: pass` blocks, unconditionally), and the next tick emits
nothing — the failed escalation is never retried. -/
theorem C5_counterexample_escalated_persisted_on_failure :
    ((get_hire (check_reminders ⟨[], 900, 3, 1, 24⟩ nf_down 0
        sample_overdue).1 "E1").map Hire.escalated = some true) ∧
    (check_reminders ⟨[], 900, 3, 1, 24⟩ nf_down 0 sample_overdue).2 =
      [Notification.escalation "E1"] ∧
    (check_reminders ⟨[], 900, 3, 1, 24⟩ nf_down 0
      (check_reminders ⟨[], 900, 3, 1, 24⟩ nf_down 0
        sample_overdue).1).2 = [] := by
  refine ⟨?_, ?_, ?_⟩ <;> decide

/-- C4: on a `check_reminders` pass, an escalation is attempted for a
non-completed hire exactly when `escalated` is unset, the start date is
in the past (negative whole-day offset), legal or devops is still
pending, and the day-granularity overdue hours reach the threshold; and
in the concrete scenario — start one day past, threshold 24 hours,
legal pending, devops already granted — the escalation fires. -/
theorem C4_escalation_iff (cfg : BotSettings) (nf : Notifier) (now : Int)
    (s : Store) (h : Hire) (hmem : h ∈ s.hires)
    (hpw : s.hires.Pairwise (fun a b => a.hire_id ≠ b.hire_id))
    (hnc : h.status ≠ HireStatus.COMPLETED) :
    (Notification.escalation h.hire_id ∈
        (check_reminders cfg nf now s).2 ↔
      (h.escalated = false ∧ days_until now h.start_date < 0 ∧
       (h.legal_status = LegalStatus.PENDING ∨
         h.devops_status = DevOpsStatus.PENDING) ∧
       ((days_until now h.start_date).natAbs * 24 : Int) ≥
         cfg.ESCALATION_HOURS)) ∧
    Notification.escalation "E1" ∈
      (check_reminders ⟨[], 900, 3, 1, 24⟩ nf_ok 0 sample_overdue).2 := by
  constructor
  · rw [check_reminders_snd]
    unfold get_hires_needing_reminders
    rw [List.mem_flatMap]
    constructor
    · rintro ⟨u, hu, hev⟩
      obtain ⟨humem, _⟩ := List.mem_filter.mp hu
      by_cases huc : u.status = HireStatus.COMPLETED
      · rw [if_pos huc] at hev
        exact absurd hev (List.not_mem_nil _)
      · rw [if_neg huc, escalation_mem_hire_events] at hev
        obtain ⟨hid, rest⟩ := hev
        have heq : u = h :=
          pairwise_ids_unique s.hires hpw u h humem hmem hid.symm
        rw [heq] at rest
        exact rest
    · rintro ⟨he, hd, hp, ht⟩
      refine ⟨h, List.mem_filter.mpr ⟨hmem, ?_⟩, ?_⟩
      · simp [needs_reminders_row, hnc, he]
      · rw [if_neg hnc, escalation_mem_hire_events]
        exact ⟨rfl, he, hd, hp, ht⟩
  · decide

/-- Witness for C4 at the overdue sample hire. -/
theorem C4_escalation_iff_witness :
    (Notification.escalation sample_overdue_hire.hire_id ∈
        (check_reminders ⟨[], 900, 3, 1, 24⟩ nf_ok 0 sample_overdue).2 ↔
      (sample_overdue_hire.escalated = false ∧
       days_until 0 sample_overdue_hire.start_date < 0 ∧
       (sample_overdue_hire.legal_status = LegalStatus.PENDING ∨
         sample_overdue_hire.devops_status = DevOpsStatus.PENDING) ∧
       ((days_until 0 sample_overdue_hire.start_date).natAbs * 24 : Int) ≥
         (⟨[], 900, 3, 1, 24⟩ : BotSettings).ESCALATION_HOURS)) ∧
    Notification.escalation "E1" ∈
      (check_reminders ⟨[], 900, 3, 1, 24⟩ nf_ok 0 sample_overdue).2 :=
  C4_escalation_iff ⟨[], 900, 3, 1, 24⟩ nf_ok 0 sample_overdue
    sample_overdue_hire (by decide) (by decide) (by decide)

/-- C6: on a `check_reminders` pass with a notifier that delivers, a
legal reminder is attempted for a non-completed hire (with a real group
chat id) exactly when legal is pending, unreminded, and the start date
lies in the window `0 < offsetDays ≤ legalThresholdDays`; the emitting
pass persists `legal_reminded`; and in the concrete scenario — a hire
created with start three days ahead, threshold 3 — the first tick emits
exactly the one legal reminder and the second tick the same day emits
nothing. -/
theorem C6_legal_reminder_iff (cfg : BotSettings) (nf : Notifier)
    (now : Int) (s : Store) (h : Hire) (hmem : h ∈ s.hires)
    (hpw : s.hires.Pairwise (fun a b => a.hire_id ≠ b.hire_id))
    (hnc : h.status ≠ HireStatus.COMPLETED) (hchat : h.chat_id ≠ 0)
    (hnf : ∀ c, nf.send_message c = true) :
    (Notification.legalReminder h.hire_id ∈
        (check_reminders cfg nf now s).2 ↔
      (h.legal_status = LegalStatus.PENDING ∧ h.legal_reminded = false ∧
       days_until now h.start_date ≤ cfg.LEGAL_REMINDER_DAYS ∧
       days_until now h.start_date > 0)) ∧
    ((h.legal_status = LegalStatus.PENDING ∧ h.legal_reminded = false ∧
       days_until now h.start_date ≤ cfg.LEGAL_REMINDER_DAYS ∧
       days_until now h.start_date > 0) →
      (get_hire (check_reminders cfg nf now s).1 h.hire_id).map
        Hire.legal_reminded = some true) ∧
    (check_reminders ⟨[], 777, 3, 1, 24⟩ nf_ok 0 sample_upcoming).2 =
      [Notification.legalReminder "L1"] ∧
    (check_reminders ⟨[], 777, 3, 1, 24⟩ nf_ok 0
      (check_reminders ⟨[], 777, 3, 1, 24⟩ nf_ok 0
        sample_upcoming).1).2 = [] := by
  refine ⟨?_, ?_, by decide, by decide⟩
  · rw [check_reminders_snd]
    unfold get_hires_needing_reminders
    rw [List.mem_flatMap]
    constructor
    · rintro ⟨u, hu, hev⟩
      obtain ⟨humem, _⟩ := List.mem_filter.mp hu
      by_cases huc : u.status = HireStatus.COMPLETED
      · rw [if_pos huc] at hev
        exact absurd hev (List.not_mem_nil _)
      · rw [if_neg huc, legal_reminder_mem_hire_events] at hev
        obtain ⟨hid, rest⟩ := hev
        have heq : u = h :=
          pairwise_ids_unique s.hires hpw u h humem hmem hid.symm
        rw [heq] at rest
        exact rest
    · rintro ⟨hpd, hrm, hle, hgt⟩
      refine ⟨h, List.mem_filter.mpr ⟨hmem, ?_⟩, ?_⟩
      · simp [needs_reminders_row, hnc, hpd, hrm]
      · rw [if_neg hnc, legal_reminder_mem_hire_events]
        exact ⟨rfl, hpd, hrm, hle, hgt⟩
  · intro hcond
    rw [check_reminders_get cfg nf now s h hmem hpw]
    have hq : needs_reminders_row h = true := by
      simp [needs_reminders_row, hnc, hcond.1, hcond.2.1]
    rw [if_pos hq, if_neg hnc]
    have hsend : send_reminder nf h.chat_id h.legal_id = true := by
      unfold send_reminder
      dsimp only
      have hz : (h.chat_id == 0) = false := beq_eq_false_iff_ne.mpr hchat
      simp [hz, hnf]
    have hfl := (process_marks_flags cfg nf now h).1
    rw [Option.map_some', hfl, hsend]
    simp [hcond.1, hcond.2.1, hcond.2.2.1, hcond.2.2.2]

/-- Witness for C6 at the upcoming sample hire. -/
theorem C6_legal_reminder_iff_witness :
    (Notification.legalReminder sample_upcoming_hire.hire_id ∈
        (check_reminders ⟨[], 777, 3, 1, 24⟩ nf_ok 0 sample_upcoming).2 ↔
      (sample_upcoming_hire.legal_status = LegalStatus.PENDING ∧
       sample_upcoming_hire.legal_reminded = false ∧
       days_until 0 sample_upcoming_hire.start_date ≤
         (⟨[], 777, 3, 1, 24⟩ : BotSettings).LEGAL_REMINDER_DAYS ∧
       days_until 0 sample_upcoming_hire.start_date > 0)) ∧
    ((sample_upcoming_hire.legal_status = LegalStatus.PENDING ∧
       sample_upcoming_hire.legal_reminded = false ∧
       days_until 0 sample_upcoming_hire.start_date ≤
         (⟨[], 777, 3, 1, 24⟩ : BotSettings).LEGAL_REMINDER_DAYS ∧
       days_until 0 sample_upcoming_hire.start_date > 0) →
      (get_hire (check_reminders ⟨[], 777, 3, 1, 24⟩ nf_ok 0
          sample_upcoming).1 sample_upcoming_hire.hire_id).map
        Hire.legal_reminded = some true) ∧
    (check_reminders ⟨[], 777, 3, 1, 24⟩ nf_ok 0 sample_upcoming).2 =
      [Notification.legalReminder "L1"] ∧
    (check_reminders ⟨[], 777, 3, 1, 24⟩ nf_ok 0
      (check_reminders ⟨[], 777, 3, 1, 24⟩ nf_ok 0
        sample_upcoming).1).2 = [] :=
  C6_legal_reminder_iff ⟨[], 777, 3, 1, 24⟩ nf_ok 0 sample_upcoming
    sample_upcoming_hire (by decide) (by decide) (by decide) (by decide)
    (fun _ => rfl)

lemma bang_eq_false {b : Bool} (hb : (!b) = false) : b = true := by
  cases b
  · simp at hb
  · rfl

/-- C5 (amended): after a `check_reminders` pass over a non-completed
hire, the stored `legal_reminded` and `devops_reminded` flags are set
exactly when the eligibility condition held and `send_reminder` reported
a successful delivery — on failure they stay unset and the reminder is
re-attempted on the next tick — while the stored `escalated` flag is set
whenever the escalation eligibility condition held, regardless of
whether any delivery succeeded, so a failed escalation is never
retried. -/
theorem C5_flag_persistence_per_kind (cfg : BotSettings) (nf : Notifier)
    (now : Int) (s : Store) (h : Hire) (hmem : h ∈ s.hires)
    (hpw : s.hires.Pairwise (fun a b => a.hire_id ≠ b.hire_id))
    (hnc : h.status ≠ HireStatus.COMPLETED) :
    ((get_hire (check_reminders cfg nf now s).1 h.hire_id).map
        Hire.legal_reminded =
      some (h.legal_reminded ||
        (decide (h.legal_status = LegalStatus.PENDING ∧
            h.legal_reminded = false ∧
            days_until now h.start_date ≤ cfg.LEGAL_REMINDER_DAYS ∧
            days_until now h.start_date > 0) &&
          send_reminder nf h.chat_id h.legal_id))) ∧
    ((get_hire (check_reminders cfg nf now s).1 h.hire_id).map
        Hire.devops_reminded =
      some (h.devops_reminded ||
        (decide (h.devops_status = DevOpsStatus.PENDING ∧
            h.devops_reminded = false ∧
            days_until now h.start_date ≤ cfg.DEVOPS_REMINDER_DAYS ∧
            days_until now h.start_date > 0) &&
          send_reminder nf h.chat_id h.devops_id))) ∧
    ((get_hire (check_reminders cfg nf now s).1 h.hire_id).map
        Hire.escalated =
      some (h.escalated ||
        (decide (h.escalated = false ∧
            days_until now h.start_date < 0) &&
          decide (h.legal_status = LegalStatus.PENDING ∨
            h.devops_status = DevOpsStatus.PENDING) &&
          decide (((days_until now h.start_date).natAbs * 24 : Int) ≥
            cfg.ESCALATION_HOURS)))) := by
  rw [check_reminders_get cfg nf now s h hmem hpw]
  by_cases hq : needs_reminders_row h = true
  · rw [if_pos hq, if_neg hnc]
    obtain ⟨f1, f2, f3⟩ := process_marks_flags cfg nf now h
    exact ⟨by rw [Option.map_some', f1], by rw [Option.map_some', f2],
      by rw [Option.map_some', f3]⟩
  · rw [if_neg hq]
    have hq2 : needs_reminders_row h = false := Bool.eq_false_iff.mpr hq
    unfold needs_reminders_row at hq2
    rw [decide_eq_true hnc, Bool.true_and, Bool.or_eq_false_iff,
      Bool.or_eq_false_iff] at hq2
    obtain ⟨⟨hA, hB⟩, hC⟩ := hq2
    have hesc : h.escalated = true := bang_eq_false hC
    refine ⟨?_, ?_, ?_⟩
    · rcases Bool.and_eq_false_iff.mp hA with hP | hR
      · have hP2 : ¬h.legal_status = LegalStatus.PENDING :=
          of_decide_eq_false hP
        simp [Option.map_some', hP2]
      · have hR2 : h.legal_reminded = true := bang_eq_false hR
        simp [Option.map_some', hR2]
    · rcases Bool.and_eq_false_iff.mp hB with hP | hR
      · have hP2 : ¬h.devops_status = DevOpsStatus.PENDING :=
          of_decide_eq_false hP
        simp [Option.map_some', hP2]
      · have hR2 : h.devops_reminded = true := bang_eq_false hR
        simp [Option.map_some', hR2]
    · simp [Option.map_some', hesc]

/-- Witness for the amended C5 theorem at the overdue sample hire with
the failing notifier: the reminder-flag formulas evaluate to unchanged
flags, the escalated formula to `true` despite every delivery
failing. -/
theorem C5_flag_persistence_witness :
    ((get_hire (check_reminders ⟨[], 900, 3, 1, 24⟩ nf_down 0
        sample_overdue).1 sample_overdue_hire.hire_id).map
        Hire.legal_reminded =
      some (sample_overdue_hire.legal_reminded ||
        (decide (sample_overdue_hire.legal_status = LegalStatus.PENDING ∧
            sample_overdue_hire.legal_reminded = false ∧
            days_until 0 sample_overdue_hire.start_date ≤
              (⟨[], 900, 3, 1, 24⟩ : BotSettings).LEGAL_REMINDER_DAYS ∧
            days_until 0 sample_overdue_hire.start_date > 0) &&
          send_reminder nf_down sample_overdue_hire.chat_id
            sample_overdue_hire.legal_id))) ∧
    ((get_hire (check_reminders ⟨[], 900, 3, 1, 24⟩ nf_down 0
        sample_overdue).1 sample_overdue_hire.hire_id).map
        Hire.devops_reminded =
      some (sample_overdue_hire.devops_reminded ||
        (decide (sample_overdue_hire.devops_status = DevOpsStatus.PENDING ∧
            sample_overdue_hire.devops_reminded = false ∧
            days_until 0 sample_overdue_hire.start_date ≤
              (⟨[], 900, 3, 1, 24⟩ : BotSettings).DEVOPS_REMINDER_DAYS ∧
            days_until 0 sample_overdue_hire.start_date > 0) &&
          send_reminder nf_down sample_overdue_hire.chat_id
            sample_overdue_hire.devops_id))) ∧
    ((get_hire (check_reminders ⟨[], 900, 3, 1, 24⟩ nf_down 0
        sample_overdue).1 sample_overdue_hire.hire_id).map
        Hire.escalated =
      some (sample_overdue_hire.escalated ||
        (decide (sample_overdue_hire.escalated = false ∧
            days_until 0 sample_overdue_hire.start_date < 0) &&
          decide (sample_overdue_hire.legal_status = LegalStatus.PENDING ∨
            sample_overdue_hire.devops_status = DevOpsStatus.PENDING) &&
          decide (((days_until 0 sample_overdue_hire.start_date).natAbs
              * 24 : Int) ≥
            (⟨[], 900, 3, 1, 24⟩ : BotSettings).ESCALATION_HOURS)))) :=
  C5_flag_persistence_per_kind ⟨[], 900, 3, 1, 24⟩ nf_down 0
    sample_overdue sample_overdue_hire (by decide) (by decide) (by decide)
